import Mathlib

/-!
Verification of the Delicassy storefront backend (`main.py`, `schemas.py`).

The endpoints are embedded shallowly: the document store is a record of
per-collection lists, monetary floats are modelled as exact rationals, and
each endpoint handler is a pure function from a request and a store state to
an HTTP outcome paired with the resulting store state (errors raised before
any write return the state unchanged, mirroring the Python control flow).

The repository imports `database.py` (`db`, `create_document`,
`get_documents`), which is not among the available sources; its behaviour is
modelled from the spec's §4.1 contract (`create(collection, record) → id`,
`query(collection, filter, limit?) → ordered sequence`), with id-equality
filters interpreted as exact match and the product free-text filter as
documented in §4.2.
-/

namespace Delicassy

/-- A BSON `ObjectId(s)` constructor accepts a string exactly when it is a
24-character hexadecimal string; `to_obj_id` relies on this (`main.py:57`). -/
def isValidObjectId (s : String) : Bool :=
  s.length == 24 && s.toList.all (fun c => c.isDigit || ('a' ≤ c && c ≤ 'f') || ('A' ≤ c && c ≤ 'F'))

/-- HTTP error outcomes raised by the handlers: `HTTPException(400/404, detail)`,
plus `internal` for uncaught Python exceptions (FastAPI turns them into 500). -/
inductive HTTPError where
  | badRequest (detail : String)
  | notFound (detail : String)
  | internal (detail : String)
deriving DecidableEq, Repr

/-- `to_obj_id` (`main.py:57-61`): parse the id string, turning a malformed id
into a 400 "Invalid id". We keep the validated string itself as the ObjectId. -/
def to_obj_id (id_str : String) : Except HTTPError String :=
  if isValidObjectId id_str then Except.ok id_str else Except.error (HTTPError.badRequest "Invalid id")

/-- `CartItem` (`schemas.py:49-51`): product id plus quantity. -/
structure CartItem where
  product_id : String
  quantity : Int
deriving DecidableEq, Repr, Inhabited

/-- A stored cart document (`schemas.py:53-56`) with its store-generated id. -/
structure CartDoc where
  id : String
  user_id : Option String
  session_id : Option String
  items : List CartItem
deriving DecidableEq, Repr, Inhabited

/-- A stored product document (`schemas.py:23-34`) with its store-generated id.
`fragility_rating` is optional at the document level because checkout reads it
with `p.get("fragility_rating", 3)` (`main.py:166`). Image/keyword fields are
not read by any handler logic and are omitted. -/
structure ProductDoc where
  id : String
  title : String
  slug : String
  description : String
  price : ℚ
  category : String
  stock : Int
  fragility_rating : Option Int
deriving DecidableEq, Repr, Inhabited

/-- A stored review document (`schemas.py:36-40`). -/
structure ReviewDoc where
  id : String
  product_id : String
  user_name : String
  rating : Int
  comment : Option String
deriving DecidableEq, Repr, Inhabited

/-- A stored order document (`schemas.py:77-89`), as built by `checkout`
(`main.py:177-186`). The address and payment payloads are opaque to the
handlers and kept as strings. -/
structure OrderDoc where
  id : String
  items : List CartItem
  amount_subtotal : ℚ
  amount_shipping : ℚ
  amount_insurance : ℚ
  amount_total : ℚ
  shipping_address : String
  payment : String
  insured : Bool
  premium_packaging : Bool
  status : String
deriving DecidableEq, Repr, Inhabited

/-- Modelled from the spec: `database.py` is not among the sources, so the
document store (§4.1) is a record of per-collection lists, one list per
collection the handlers touch, in insertion order. -/
structure DB where
  carts : List CartDoc
  products : List ProductDoc
  orders : List OrderDoc
  reviews : List ReviewDoc
deriving DecidableEq, Repr, Inhabited

/-- Modelled from the spec: `get_documents("cart", {"_id": oid}, limit=1)` is
an exact-id lookup (§4.3 "exact-id lookup"), returning the first match. -/
def findCart (db : DB) (oid : String) : Option CartDoc :=
  db.carts.find? (fun c => c.id == oid)

/-- Python `round(x, 2)` on exact values: round half to even at the second
decimal place (floats are idealised as exact rationals throughout). -/
def roundHalfEven (q : ℚ) : ℤ :=
  let f := q.floor
  let r := q - (f : ℚ)
  if Rat.blt r (1/2) then f
  else if Rat.blt (1/2) r then f + 1
  else if f % 2 = 0 then f else f + 1

/-- `round(q, 2)`. -/
def pyround2 (q : ℚ) : ℚ := (roundHalfEven (q * 100) : ℚ) / 100

/-- The batched product lookup `db["product"].find({"_id": {"$in": ids}})`
(`main.py:164`): the products whose id occurs among the cart lines. -/
def batchProducts (db : DB) (items : List CartItem) : List ProductDoc :=
  db.products.filter (fun p => (items.map (fun i => i.product_id)).contains p.id)

/-- `price_map.get(pid, 0)` over the dict comprehension of `main.py:165`:
a dict built from a list keeps the last binding for a duplicated key, so the
lookup scans the reversed list; a missing product prices at 0. -/
def price_map_get (products : List ProductDoc) (pid : String) : ℚ :=
  match products.reverse.find? (fun p => p.id == pid) with
  | some p => p.price
  | none => 0

/-- `fragility_map.get(pid, 3)` over the dict comprehension of `main.py:166`:
`p.get("fragility_rating", 3)` per product, and 3 for a missing product. -/
def fragility_map_get (products : List ProductDoc) (pid : String) : Int :=
  match products.reverse.find? (fun p => p.id == pid) with
  | some p => p.fragility_rating.getD 3
  | none => 3

/-- `subtotal` (`main.py:168`): Σ over cart lines of price × quantity. -/
def subtotalOf (products : List ProductDoc) (items : List CartItem) : ℚ :=
  (items.map (fun it => price_map_get products it.product_id * (it.quantity : ℚ))).sum

/-- `avg_fragility` (`main.py:170`): the arithmetic mean over cart lines of the
per-line fragility, dividing by the number of lines. -/
def avgFragility (products : List ProductDoc) (items : List CartItem) : ℚ :=
  (items.map (fun it => (fragility_map_get products it.product_id : ℚ))).sum / (items.length : ℚ)

/-- `CheckoutRequest` (`main.py:143-148`); the address and payment dicts are
opaque payloads. -/
structure CheckoutRequest where
  cart_id : String
  shipping_address : String
  payment : String
  insured : Bool := true
  premium_packaging : Bool := false
deriving DecidableEq, Repr

/-- The checkout response body (`main.py:193`). -/
structure CheckoutResponse where
  order_id : String
  amount_total : ℚ
  status : String
deriving DecidableEq, Repr

/-- `db["product"].update_one({"_id": pid}, {"$inc": {"stock": d}})`: add `d`
to the stock of the first product whose id matches (`main.py:191`). -/
def incStockFirst (products : List ProductDoc) (pid : String) (d : Int) : List ProductDoc :=
  match products with
  | [] => []
  | p :: ps =>
    if p.id == pid then { p with stock := p.stock + d } :: ps
    else p :: incStockFirst ps pid d

/-- The per-line stock decrement loop of `main.py:190-191`. -/
def decrementStocks (products : List ProductDoc) (items : List CartItem) : List ProductDoc :=
  items.foldl (fun ps it => incStockFirst ps it.product_id (-it.quantity)) products

/-- Modelled from the spec: `create_document` (§4.1) assigns a store-generated
unique id to the created record; we generate it from the collection size. -/
def newId (n : Nat) : String := String.append "id" (toString n)

/-- `insurance` (`main.py:171`): fragility-scaled percentage of the subtotal
when insured, else 0. -/
def insuranceOf (req : CheckoutRequest) (products : List ProductDoc) (items : List CartItem) : ℚ :=
  if req.insured then
    pyround2 (subtotalOf products items * (2/100 + 2/100 * (avgFragility products items - 1)))
  else 0

/-- `premium_packaging_fee` (`main.py:172`): flat 14.0 when requested. -/
def feeOf (req : CheckoutRequest) : ℚ :=
  if req.premium_packaging then 14 else 0

/-- `shipping` (`main.py:173`): base 9.0 plus 2.5 per fragility point above 1. -/
def shippingOf (products : List ProductDoc) (items : List CartItem) : ℚ :=
  pyround2 (9 + (avgFragility products items - 1) * (5/2))

/-- `total` (`main.py:175`). -/
def totalOf (req : CheckoutRequest) (products : List ProductDoc) (items : List CartItem) : ℚ :=
  pyround2 (subtotalOf products items + shippingOf products items
    + insuranceOf req products items + feeOf req)

/-- The `Order` snapshot persisted by checkout (`main.py:177-187`). -/
def mkOrder (req : CheckoutRequest) (db : DB) (cart : CartDoc) : OrderDoc :=
  { id := newId db.orders.length
    items := cart.items
    amount_subtotal := subtotalOf (batchProducts db cart.items) cart.items
    amount_shipping := shippingOf (batchProducts db cart.items) cart.items
    amount_insurance := insuranceOf req (batchProducts db cart.items) cart.items
    amount_total := totalOf req (batchProducts db cart.items) cart.items
    shipping_address := req.shipping_address
    payment := req.payment
    insured := req.insured
    premium_packaging := req.premium_packaging
    status := "created" }

/-- `checkout` (`main.py:150-193`). Returns the HTTP outcome paired with the
resulting store state; every error path precedes the writes, so errors return
the state unchanged. A cart line whose `product_id` is not a well-formed
ObjectId makes `ObjectId(i["product_id"])` (`main.py:163`) raise an uncaught
exception, modelled as an internal error. -/
def checkout (req : CheckoutRequest) (db : DB) : Except HTTPError CheckoutResponse × DB :=
  if isValidObjectId req.cart_id then
    match findCart db req.cart_id with
    | none => (Except.error (HTTPError.notFound "Cart not found"), db)
    | some cart =>
      if cart.items.isEmpty then (Except.error (HTTPError.badRequest "Cart is empty"), db)
      else if cart.items.all (fun i => isValidObjectId i.product_id) then
        (Except.ok
          { order_id := newId db.orders.length
            amount_total := totalOf req (batchProducts db cart.items) cart.items
            status := "created" },
         { db with
           orders := db.orders ++ [mkOrder req db cart]
           products := decrementStocks db.products cart.items })
      else (Except.error (HTTPError.internal "Invalid ObjectId"), db)
  else (Except.error (HTTPError.badRequest "Invalid id"), db)

/-- Substring containment on character lists. -/
def containsSub (pat : List Char) : List Char → Bool
  | [] => pat.isEmpty
  | c :: t => pat.isPrefixOf (c :: t) || containsSub pat t

/-- Case-insensitive substring containment. -/
def containsCI (hay pat : String) : Bool :=
  containsSub (pat.toList.map Char.toLower) (hay.toList.map Char.toLower)

/-- `list_products` (`main.py:76-86`). Modelled from the spec: the filter is
interpreted by `get_documents`/the store, which is not among the sources; §4.2
reads it as exact category match AND case-insensitive substring match of `q`
against title or description, composed with logical AND. A `None` or empty
parameter is falsy in Python and applies no filter. -/
def list_products (category : Option String) (q : Option String) (db : DB) : List ProductDoc :=
  db.products.filter (fun p =>
    (match category with
     | some c => if c = "" then true else p.category == c
     | none => true)
    &&
    (match q with
     | some s => if s = "" then true else containsCI p.title s || containsCI p.description s
     | none => true))

/-- The review request body (`schemas.py:36-40`). -/
structure ReviewIn where
  product_id : String
  user_name : String
  rating : Int
  comment : Option String
deriving DecidableEq, Repr

/-- `add_review` (`main.py:105-111`): `ObjectId(review.product_id)` is applied
without `to_obj_id`, so a malformed id raises an uncaught exception (500);
otherwise the product must exist (404 if not) and the review is persisted. -/
def add_review (review : ReviewIn) (db : DB) : Except HTTPError String × DB :=
  if isValidObjectId review.product_id then
    if (db.products.find? (fun p => p.id == review.product_id)).isSome then
      let rid := newId db.reviews.length
      (Except.ok rid,
        { db with
          reviews := db.reviews ++
            [{ id := rid
               product_id := review.product_id
               user_name := review.user_name
               rating := review.rating
               comment := review.comment }] })
    else (Except.error (HTTPError.notFound "Product not found"), db)
  else (Except.error (HTTPError.internal "Invalid ObjectId"), db)

/-- `db["cart"].update_one({"_id": oid}, {"$set": {"items": items}})`:
replace the items of the first cart whose id matches (`main.py:136`). -/
def setItemsFirst (carts : List CartDoc) (oid : String) (items : List CartItem) : List CartDoc :=
  match carts with
  | [] => []
  | c :: cs =>
    if c.id == oid then { c with items := items } :: cs
    else c :: setItemsFirst cs oid items

/-- `update_cart` (`main.py:132-139`): malformed id → 400 via `to_obj_id`;
`matched_count == 0` → 404; otherwise the cart's items array is replaced
wholesale and `{"ok": true}` is returned. -/
def update_cart (cart_id : String) (items : List CartItem) (db : DB) : Except HTTPError Bool × DB :=
  match to_obj_id cart_id with
  | Except.error e => (Except.error e, db)
  | Except.ok oid =>
    if (db.carts.find? (fun c => c.id == oid)).isSome then
      (Except.ok true, { db with carts := setItemsFirst db.carts oid items })
    else (Except.error (HTTPError.notFound "Cart not found"), db)

/-! Concrete store states used to witness the theorems below. -/

/-- A well-formed product ObjectId. -/
def pidVase : String := "aaaaaaaaaaaaaaaaaaaaaaaa"

/-- A well-formed ObjectId that no stored product carries. -/
def pidGone : String := "cccccccccccccccccccccccc"

def cidMain : String := "bbbbbbbbbbbbbbbbbbbbbbbb"

def cidEmpty : String := "eeeeeeeeeeeeeeeeeeeeeeee"

def cidMissing : String := "ffffffffffffffffffffffff"

def cidBig : String := "123456789012345678901234"

def prodVase : ProductDoc :=
  { id := pidVase, title := "Crystal Vase", slug := "crystal-vase"
    description := "Hand-blown Glass vase", price := 10, category := "vases"
    stock := 5, fragility_rating := some 3 }

def cartMain : CartDoc :=
  { id := cidMain, user_id := none, session_id := some "s1"
    items := [{ product_id := pidVase, quantity := 2 }] }

def cartEmpty : CartDoc :=
  { id := cidEmpty, user_id := some "u2", session_id := none, items := [] }

def cartMissing : CartDoc :=
  { id := cidMissing, user_id := none, session_id := some "s3"
    items := [{ product_id := pidGone, quantity := 1 }] }

def cartBig : CartDoc :=
  { id := cidBig, user_id := none, session_id := some "s4"
    items := [{ product_id := pidVase, quantity := 7 }] }

def db0 : DB :=
  { carts := [cartMain, cartEmpty, cartMissing, cartBig]
    products := [prodVase], orders := [], reviews := [] }

def reqMain : CheckoutRequest := { cart_id := cidMain, shipping_address := "addr", payment := "card" }

def reqEmpty : CheckoutRequest := { cart_id := cidEmpty, shipping_address := "addr", payment := "card" }

def reqMissing : CheckoutRequest := { cart_id := cidMissing, shipping_address := "addr", payment := "card" }

def reqBig : CheckoutRequest := { cart_id := cidBig, shipping_address := "addr", payment := "card" }

def reqBad : CheckoutRequest := { cart_id := "nope", shipping_address := "addr", payment := "card" }

def revVase : ReviewIn := { product_id := pidVase, user_name := "ada", rating := 5, comment := none }

/-- The store after clearing `cartMain`'s items. -/
def dbCleared : DB :=
  { db0 with carts := [{ cartMain with items := [] }, cartEmpty, cartMissing, cartBig] }

/-! Helper lemmas. -/

theorem containsSub_nil (l : List Char) : containsSub [] l = true := by
  cases l <;> simp [containsSub, List.isPrefixOf]

theorem containsCI_empty (hay : String) : containsCI hay "" = true := by
  simpa [containsCI] using containsSub_nil (hay.toList.map Char.toLower)

theorem checkout_eq_of_valid (req : CheckoutRequest) (db : DB) (cart : CartDoc)
    (h1 : isValidObjectId req.cart_id = true)
    (h2 : findCart db req.cart_id = some cart)
    (h3 : cart.items ≠ [])
    (h4 : cart.items.all (fun i => isValidObjectId i.product_id) = true) :
    checkout req db =
      (Except.ok
        { order_id := newId db.orders.length
          amount_total := totalOf req (batchProducts db cart.items) cart.items
          status := "created" },
       { db with
         orders := db.orders ++ [mkOrder req db cart]
         products := decrementStocks db.products cart.items }) := by
  have h3' : cart.items.isEmpty = false := by
    simpa [List.isEmpty_iff] using h3
  simp [checkout, h1, h2, h3', h4]

/-- C1: for every checkout request whose cart_id resolves to an existing cart
with a non-empty item list (and, as the code requires, well-formed line ids),
the returned `amount_total` equals `round(subtotal + shipping + insurance +
premium_packaging_fee, 2)`, where subtotal sums `price[product_id] × quantity`
over cart lines, `shipping = round(9.0 + (avg_fragility - 1) * 2.5, 2)`,
`insurance = round(subtotal * (0.02 + 0.02 * (avg_fragility - 1)), 2)` when
insured and 0 otherwise, and the fee is 14.0 when premium packaging is
requested and 0 otherwise. -/
theorem C1_amount_total_formula (req : CheckoutRequest) (db : DB) (cart : CartDoc)
    (h1 : isValidObjectId req.cart_id = true)
    (h2 : findCart db req.cart_id = some cart)
    (h3 : cart.items ≠ [])
    (h4 : cart.items.all (fun i => isValidObjectId i.product_id) = true) :
    ∃ resp db2, checkout req db = (Except.ok resp, db2) ∧
      resp.amount_total =
        pyround2
          ((cart.items.map (fun it =>
              price_map_get (batchProducts db cart.items) it.product_id * (it.quantity : ℚ))).sum
           + pyround2 (9 + ((cart.items.map (fun it =>
                (fragility_map_get (batchProducts db cart.items) it.product_id : ℚ))).sum
                  / (cart.items.length : ℚ) - 1) * (5/2))
           + (if req.insured then
                pyround2 ((cart.items.map (fun it =>
                  price_map_get (batchProducts db cart.items) it.product_id * (it.quantity : ℚ))).sum
                  * (2/100 + 2/100 * ((cart.items.map (fun it =>
                      (fragility_map_get (batchProducts db cart.items) it.product_id : ℚ))).sum
                        / (cart.items.length : ℚ) - 1)))
              else 0)
           + (if req.premium_packaging then (14 : ℚ) else 0)) := by
  refine ⟨_, _, checkout_eq_of_valid req db cart h1 h2 h3 h4, rfl⟩

/-- Witness for C1: the spec's worked example, a cart holding quantity 2 of a
price-10, fragility-3 product, checks out successfully. -/
theorem C1_amount_total_formula_witness :
    isValidObjectId reqMain.cart_id = true
    ∧ findCart db0 reqMain.cart_id = some cartMain
    ∧ cartMain.items ≠ []
    ∧ cartMain.items.all (fun i => isValidObjectId i.product_id) = true
    ∧ ∃ resp db2, checkout reqMain db0 = (Except.ok resp, db2) := by
  refine ⟨by decide, by decide, by decide, by decide, ?_⟩
  obtain ⟨resp, db2, hc, -⟩ :=
    C1_amount_total_formula reqMain db0 cartMain (by decide) (by decide) (by decide) (by decide)
  exact ⟨resp, db2, hc⟩

/-- C2: `avg_fragility` is the plain arithmetic mean of the per-cart-line
fragility values — the sum over lines of `fragility[product_id]` divided by
the number of lines — and is invariant under arbitrary changes to each line's
quantity, so a line with quantity 100 contributes exactly once. -/
theorem C2_avg_fragility_unweighted (products : List ProductDoc) (items : List CartItem)
    (f : CartItem → Int) :
    avgFragility products items
      = (items.map (fun it => (fragility_map_get products it.product_id : ℚ))).sum
          / (items.length : ℚ)
    ∧ avgFragility products (items.map (fun it => { it with quantity := f it }))
      = avgFragility products items := by
  refine ⟨rfl, ?_⟩
  simp only [avgFragility, List.map_map, List.length_map]
  rfl

/-- C4: checkout on an existing cart whose item list is empty fails with a
Bad-Request "Cart is empty" and leaves the store state unchanged. -/
theorem C4_empty_cart (req : CheckoutRequest) (db : DB) (cart : CartDoc)
    (h1 : isValidObjectId req.cart_id = true)
    (h2 : findCart db req.cart_id = some cart)
    (h3 : cart.items = []) :
    checkout req db = (Except.error (HTTPError.badRequest "Cart is empty"), db) := by
  simp [checkout, h1, h2, h3]

/-- Witness for C4: the stored empty cart makes checkout fail with
"Cart is empty" and touches nothing. -/
theorem C4_empty_cart_witness :
    isValidObjectId reqEmpty.cart_id = true
    ∧ findCart db0 reqEmpty.cart_id = some cartEmpty
    ∧ cartEmpty.items = []
    ∧ checkout reqEmpty db0 = (Except.error (HTTPError.badRequest "Cart is empty"), db0) := by
  exact ⟨by decide, by decide, by decide,
    C4_empty_cart reqEmpty db0 cartEmpty (by decide) (by decide) (by decide)⟩

/-- C10: a checkout request whose cart_id is not a well-formed ObjectId string
fails with the Bad-Request error 400 "Invalid id" — a different error from
Not-Found — and the store state is unchanged (no cart lookup result is used,
no order is created, no stock changes). -/
theorem C10_invalid_checkout_id (req : CheckoutRequest) (db : DB)
    (h : isValidObjectId req.cart_id = false) :
    checkout req db = (Except.error (HTTPError.badRequest "Invalid id"), db)
    ∧ ∀ d : String, HTTPError.badRequest "Invalid id" ≠ HTTPError.notFound d := by
  refine ⟨by simp [checkout, h], ?_⟩
  intro d heq
  cases heq

/-- Witness for C10: the cart id "nope" is rejected before any effect. -/
theorem C10_invalid_checkout_id_witness :
    isValidObjectId reqBad.cart_id = false
    ∧ checkout reqBad db0 = (Except.error (HTTPError.badRequest "Invalid id"), db0) := by
  exact ⟨by decide, (C10_invalid_checkout_id reqBad db0 (by decide)).1⟩

theorem find?_incStockFirst (ps : List ProductDoc) (pid x : String) (d : Int) :
    (incStockFirst ps pid d).find? (fun p => p.id == x)
      = if x = pid
        then (ps.find? (fun p => p.id == x)).map (fun p => { p with stock := p.stock + d })
        else ps.find? (fun p => p.id == x) := by
  induction ps with
  | nil => by_cases h : x = pid <;> simp [incStockFirst, h]
  | cons p ps ih =>
    by_cases hp : p.id = pid <;> by_cases hx : x = pid <;> by_cases hpx : p.id = x <;>
      simp_all [incStockFirst, List.find?_cons]

theorem find?_decrementStocks (items : List CartItem) (ps : List ProductDoc) (x : String) :
    (decrementStocks ps items).find? (fun p => p.id == x)
      = (ps.find? (fun p => p.id == x)).map
          (fun p => { p with
            stock := p.stock
              - ((items.filter (fun it => it.product_id == x)).map CartItem.quantity).sum }) := by
  induction items generalizing ps with
  | nil =>
    cases h : ps.find? (fun p => p.id == x) with
    | none => simp [decrementStocks, h]
    | some p => cases p; simp [decrementStocks, h]
  | cons it its ih =>
    have hstep : decrementStocks ps (it :: its)
        = decrementStocks (incStockFirst ps it.product_id (-it.quantity)) its := rfl
    rw [hstep, ih, find?_incStockFirst]
    by_cases hx : x = it.product_id
    · have hx' : (it.product_id == x) = true := by simp [hx]
      cases h : ps.find? (fun p => p.id == x) with
      | none => simp [hx, h]
      | some p =>
        cases p
        simp only [hx, if_pos rfl, h, Option.map_some, List.filter_cons, hx',
          List.map_cons, List.sum_cons]
        simp [ProductDoc.mk.injEq]
        omega
    · have hx' : (it.product_id == x) = false := by
        simp [beq_eq_false_iff_ne]
        exact fun h => hx h.symm
      simp [hx, hx', List.filter_cons]

/-- C3: a cart line whose product id is absent from the batched product lookup
contributes price 0 and fragility 3 via the map defaults, and checkout still
succeeds rather than signalling an error for that line. -/
theorem C3_missing_product_defaults (req : CheckoutRequest) (db : DB) (cart : CartDoc)
    (pid : String)
    (h1 : isValidObjectId req.cart_id = true)
    (h2 : findCart db req.cart_id = some cart)
    (h3 : cart.items ≠ [])
    (h4 : cart.items.all (fun i => isValidObjectId i.product_id) = true)
    (hmem : pid ∈ cart.items.map CartItem.product_id)
    (habs : ∀ p ∈ db.products, p.id ≠ pid) :
    price_map_get (batchProducts db cart.items) pid = 0
    ∧ fragility_map_get (batchProducts db cart.items) pid = 3
    ∧ ∃ resp db2, checkout req db = (Except.ok resp, db2) := by
  have hfind : (batchProducts db cart.items).reverse.find? (fun p => p.id == pid) = none := by
    apply List.find?_eq_none.mpr
    intro p hp
    simp only [List.mem_reverse, batchProducts, List.mem_filter] at hp
    simpa using habs p hp.1
  exact ⟨by simp [price_map_get, hfind], by simp [fragility_map_get, hfind],
    _, _, checkout_eq_of_valid req db cart h1 h2 h3 h4⟩

/-- Witness for C3: a cart referencing a product id stored nowhere checks out
successfully with the silent defaults. -/
theorem C3_missing_product_defaults_witness :
    isValidObjectId reqMissing.cart_id = true
    ∧ findCart db0 reqMissing.cart_id = some cartMissing
    ∧ cartMissing.items ≠ []
    ∧ cartMissing.items.all (fun i => isValidObjectId i.product_id) = true
    ∧ pidGone ∈ cartMissing.items.map CartItem.product_id
    ∧ (∀ p ∈ db0.products, p.id ≠ pidGone)
    ∧ price_map_get (batchProducts db0 cartMissing.items) pidGone = 0
    ∧ fragility_map_get (batchProducts db0 cartMissing.items) pidGone = 3
    ∧ ∃ resp db2, checkout reqMissing db0 = (Except.ok resp, db2) := by
  exact ⟨by decide, by decide, by decide, by decide, by decide, by decide,
    C3_missing_product_defaults reqMissing db0 cartMissing pidGone
      (by decide) (by decide) (by decide) (by decide) (by decide) (by decide)⟩

/-- C5: after a successful checkout every product's stored stock (as observed
by an id lookup) drops by the summed quantities of the cart lines referencing
it, as independent per-line `$inc` updates with no sufficiency check — nothing
prevents the resulting stock from being negative. -/
theorem C5_stock_decrement (req : CheckoutRequest) (db : DB) (cart : CartDoc)
    (h1 : isValidObjectId req.cart_id = true)
    (h2 : findCart db req.cart_id = some cart)
    (h3 : cart.items ≠ [])
    (h4 : cart.items.all (fun i => isValidObjectId i.product_id) = true) :
    ∃ resp db2, checkout req db = (Except.ok resp, db2) ∧
      ∀ x : String,
        db2.products.find? (fun p => p.id == x)
          = (db.products.find? (fun p => p.id == x)).map
              (fun p => { p with
                stock := p.stock
                  - ((cart.items.filter (fun it => it.product_id == x)).map
                      CartItem.quantity).sum }) := by
  refine ⟨_, _, checkout_eq_of_valid req db cart h1 h2 h3 h4, ?_⟩
  intro x
  exact find?_decrementStocks cart.items db.products x

/-- Witness for C5: checking out quantity 7 of a product with stock 5
succeeds and leaves the stored stock at -2. -/
theorem C5_stock_decrement_witness :
    isValidObjectId reqBig.cart_id = true
    ∧ findCart db0 reqBig.cart_id = some cartBig
    ∧ cartBig.items ≠ []
    ∧ cartBig.items.all (fun i => isValidObjectId i.product_id) = true
    ∧ ∃ resp db2, checkout reqBig db0 = (Except.ok resp, db2) ∧
        db2.products.find? (fun p => p.id == pidVase)
          = some { prodVase with stock := -2 } := by
  refine ⟨by decide, by decide, by decide, by decide, ?_⟩
  obtain ⟨resp, db2, hc, hstock⟩ :=
    C5_stock_decrement reqBig db0 cartBig (by decide) (by decide) (by decide) (by decide)
  exact ⟨resp, db2, hc, (hstock pidVase).trans (by decide)⟩

/-- C6: with a free-text query the returned products are exactly those whose
title or description contains the query as a case-insensitive substring; with
a (non-empty) category slug as well, a product is returned iff its category
equals the slug exactly AND the substring condition holds. -/
theorem C6_product_search (db : DB) (s c : String) (p : ProductDoc) (hc : c ≠ "") :
    (p ∈ list_products none (some s) db
      ↔ p ∈ db.products ∧ (containsCI p.title s || containsCI p.description s) = true)
    ∧ (p ∈ list_products (some c) (some s) db
      ↔ p ∈ db.products ∧ p.category = c
          ∧ (containsCI p.title s || containsCI p.description s) = true) := by
  by_cases hs : s = ""
  · subst hs
    constructor
    · simp [list_products, List.mem_filter, containsCI_empty]
    · simp [list_products, List.mem_filter, containsCI_empty, hc, beq_iff_eq, and_assoc]
  · constructor
    · simp [list_products, List.mem_filter, hs]
    · simp [list_products, List.mem_filter, hs, hc, beq_iff_eq, and_assoc]

/-- Witness for C6: searching q="glass" in category "vases" returns the
stored product whose description contains "Glass". -/
theorem C6_product_search_witness :
    "vases" ≠ ""
    ∧ prodVase ∈ list_products (some "vases") (some "glass") db0 := by
  refine ⟨by decide, ?_⟩
  exact ((C6_product_search db0 "glass" "vases" prodVase (by decide)).2).mpr
    ⟨by decide, by decide, by decide⟩

/-- C7: adding a review whose (well-formed) product_id resolves to no stored
product fails with Not-Found and persists nothing; when it resolves, the
review is persisted and its new id returned. -/
theorem C7_review_product_check (db : DB) (rev : ReviewIn)
    (hv : isValidObjectId rev.product_id = true) :
    (db.products.find? (fun p => p.id == rev.product_id) = none →
        add_review rev db = (Except.error (HTTPError.notFound "Product not found"), db))
    ∧ (∀ q, db.products.find? (fun p => p.id == rev.product_id) = some q →
        add_review rev db =
          (Except.ok (newId db.reviews.length),
           { db with reviews := db.reviews ++
               [{ id := newId db.reviews.length
                  product_id := rev.product_id
                  user_name := rev.user_name
                  rating := rev.rating
                  comment := rev.comment }] })) := by
  constructor
  · intro h
    simp [add_review, hv, h]
  · intro q h
    simp [add_review, hv, h]

/-- Witness for C7: reviewing the stored product persists the review. -/
theorem C7_review_product_check_witness :
    isValidObjectId revVase.product_id = true
    ∧ add_review revVase db0 =
        (Except.ok (newId db0.reviews.length),
         { db0 with reviews := db0.reviews ++
             [{ id := newId db0.reviews.length
                product_id := revVase.product_id
                user_name := revVase.user_name
                rating := revVase.rating
                comment := revVase.comment }] }) := by
  exact ⟨by decide,
    (C7_review_product_check db0 revVase (by decide)).2 prodVase (by decide)⟩

theorem find?_setItemsFirst (carts : List CartDoc) (cid : String) (items : List CartItem) :
    (setItemsFirst carts cid items).find? (fun c => c.id == cid)
      = (carts.find? (fun c => c.id == cid)).map (fun c => { c with items := items }) := by
  induction carts with
  | nil => simp [setItemsFirst]
  | cons c cs ih =>
    by_cases h : c.id = cid <;> simp_all [setItemsFirst, List.find?_cons]

/-- C8: updating an existing cart replaces its entire items array with the
request's list (re-fetching the cart by id yields exactly the new list, so
`items=[]` clears it), and updating a nonexistent cart id fails Not-Found. -/
theorem C8_cart_replace (db : DB) (cid : String) (items : List CartItem)
    (hv : isValidObjectId cid = true) :
    ((db.carts.find? (fun c => c.id == cid)).isSome →
        update_cart cid items db
            = (Except.ok true, { db with carts := setItemsFirst db.carts cid items })
          ∧ (setItemsFirst db.carts cid items).find? (fun c => c.id == cid)
              = (db.carts.find? (fun c => c.id == cid)).map (fun c => { c with items := items }))
    ∧ (db.carts.find? (fun c => c.id == cid) = none →
        update_cart cid items db = (Except.error (HTTPError.notFound "Cart not found"), db)) := by
  constructor
  · intro h
    exact ⟨by simp [update_cart, to_obj_id, hv, h], find?_setItemsFirst db.carts cid items⟩
  · intro h
    simp [update_cart, to_obj_id, hv, h]

/-- Witness for C8: clearing the stored cart with `items=[]` leaves it with no
items on re-fetch. -/
theorem C8_cart_replace_witness :
    isValidObjectId cidMain = true
    ∧ (db0.carts.find? (fun c => c.id == cidMain)).isSome = true
    ∧ (setItemsFirst db0.carts cidMain []).find? (fun c => c.id == cidMain)
        = some { cartMain with items := [] } := by
  refine ⟨by decide, by decide, ?_⟩
  exact ((C8_cart_replace db0 cidMain [] (by decide)).1 (by decide)).2.trans (by decide)

theorem setItemsFirst_frame (carts : List CartDoc) (cid : String) (items : List CartItem) :
    List.Forall₂
      (fun c c2 => c2.id = c.id ∧ c2.user_id = c.user_id ∧ c2.session_id = c.session_id
        ∧ (c.id ≠ cid → c2 = c))
      carts (setItemsFirst carts cid items) := by
  induction carts with
  | nil => simp [setItemsFirst]
  | cons c cs ih =>
    by_cases h : c.id = cid
    · rw [setItemsFirst, if_pos (by simp [h])]
      refine List.Forall₂.cons ⟨rfl, rfl, rfl, fun hne => absurd h hne⟩ ?_
      exact List.forall₂_same.mpr (fun x _ => ⟨rfl, rfl, rfl, fun _ => rfl⟩)
    · rw [setItemsFirst, if_neg (by simp [h])]
      exact List.Forall₂.cons ⟨rfl, rfl, rfl, fun _ => rfl⟩ ih

/-- C9: a successful cart update modifies only the items field of the updated
cart: every stored cart keeps its id, user_id and session_id, carts with a
different id are untouched, and the product, order and review collections are
unchanged. -/
theorem C9_cart_update_frame (db : DB) (cid : String) (items : List CartItem) (db2 : DB)
    (h : update_cart cid items db = (Except.ok true, db2)) :
    db2.products = db.products ∧ db2.orders = db.orders ∧ db2.reviews = db.reviews
    ∧ List.Forall₂
        (fun c c2 => c2.id = c.id ∧ c2.user_id = c.user_id ∧ c2.session_id = c.session_id
          ∧ (c.id ≠ cid → c2 = c))
        db.carts db2.carts := by
  by_cases hv : isValidObjectId cid = true
  · by_cases hf : (db.carts.find? (fun c => c.id == cid)).isSome = true
    · simp only [update_cart, to_obj_id, hv, if_true, hf, Prod.mk.injEq] at h
      rw [← h.2]
      exact ⟨rfl, rfl, rfl, setItemsFirst_frame db.carts cid items⟩
    · simp [update_cart, to_obj_id, hv, hf] at h
  · simp [update_cart, to_obj_id, hv] at h

/-- Witness for C9: clearing the stored cart changes nothing but that cart's
items. -/
theorem C9_cart_update_frame_witness :
    update_cart cidMain [] db0 = (Except.ok true, dbCleared)
    ∧ dbCleared.products = db0.products ∧ dbCleared.orders = db0.orders
    ∧ dbCleared.reviews = db0.reviews
    ∧ List.Forall₂
        (fun c c2 => c2.id = c.id ∧ c2.user_id = c.user_id ∧ c2.session_id = c.session_id
          ∧ (c.id ≠ cidMain → c2 = c))
        db0.carts dbCleared.carts := by
  refine ⟨rfl, ?_⟩
  exact C9_cart_update_frame db0 cidMain [] dbCleared rfl

end Delicassy
